import Mathlib

/-!
Shallow embedding of the dkp real-time messaging/presence subsystem
(`dkp/comms/consumers.py`, `dkp/comms/models.py`, `dkp/comms/cache_utils.py`,
role data from `dkp/hospital/models.py` + `translation.py`).

Conventions:
* machine integers are `Int`/`Nat` (Python ints are unbounded, so no wrap);
* Python exceptions are `Except PyError`;
* the Django cache is an association list from key strings to `Int` values;
* the channel layer / websocket sends performed by a handler are collected in
  an ordered list of `Emitted` values (`Sink.group g` for
  `channel_layer.group_send(g, …)`, `Sink.transport` for `self.send(…)`);
* timestamps (`timezone.now()`) are abstract `Nat` values passed in.
-/

/-- Python-level failures that the embedded code can raise. -/
inductive PyError where
  | doesNotExist
  | attributeError
  | typeError
  | keyError
  | valueError
  | fieldError
  deriving DecidableEq, Repr

/-- `hospital.models.Role`: `name` column, plus the `name_en` column added by
django-modeltranslation (`hospital/translation.py` registers `Role.name`). -/
structure Role where
  id : Nat
  name : String
  name_en : String
  deriving DecidableEq, Repr

/-- `comms.models.MessageLog` (models.py lines 92-128): fields `hospital`,
`sender_role`, `recipient_role`, `message_type`, `content`, `operating_room`,
`ward`, `sent_at`, `acknowledged_at`, `no_users_who_received`.  Foreign keys are
embedded as ids.  Note: the model defines NO `location_type` or `location_id`
field. -/
structure MessageLog where
  id : Nat
  hospital_id : Nat
  sender_role_id : Nat
  recipient_role_id : Nat
  message_type : String
  content : String
  operating_room_id : Nat
  ward_id : Nat
  sent_at : Nat
  acknowledged_at : Option Nat
  no_users_who_received : Nat
  deriving DecidableEq, Repr

/-- The database tables the consumers touch. -/
structure DB where
  roles : List Role
  messages : List MessageLog
  deriving DecidableEq, Repr

/-- `Role.objects.get(name_en=n)` — raises `DoesNotExist` when absent. -/
def ormGetRoleByNameEn (db : DB) (n : String) : Except PyError Role :=
  match db.roles.find? (fun r => r.name_en == n) with
  | some r => .ok r
  | none => .error .doesNotExist

/-- `MessageLog.objects.get(id=i)` as an `Option` (the callers wrap the
`DoesNotExist` case themselves). -/
def ormGetMessage (msgs : List MessageLog) (i : Nat) : Option MessageLog :=
  msgs.find? (fun m => m.id == i)

/-- Resolve a foreign-key role id (the object loaded by `select_related`). -/
def ormRoleById (db : DB) (i : Nat) : Except PyError Role :=
  match db.roles.find? (fun r => r.id == i) with
  | some r => .ok r
  | none => .error .doesNotExist

/-- `message.location_type`: `MessageLog` (models.py) defines no field or
attribute named `location_type` (the location model moved to the explicit
`operating_room`/`ward` foreign keys), so this Python attribute access raises
`AttributeError` on every instance. -/
def MessageLog.location_type_attr (_ : MessageLog) : Except PyError String :=
  .error .attributeError

/-- `message.location_id`: likewise not a field of `MessageLog`; raises
`AttributeError`. -/
def MessageLog.location_id_attr (_ : MessageLog) : Except PyError Int :=
  .error .attributeError

/-- Field names of `comms.models.MessageLog` (models.py lines 92-128), i.e. the
keyword arguments `MessageLog(**kwargs)` accepts. -/
def messageLogFieldNames : List String :=
  ["id", "hospital", "sender_role", "recipient_role", "message_type", "content",
   "operating_room", "ward", "sent_at", "acknowledged_at", "no_users_who_received"]

/-- Keyword-argument names passed by `MessageLog.objects.create(...)` in both
`AnesthetistConsumer._create_message_db` (lines 183-190) and
`CommunicationConsumer._create_message_db` (lines 496-503). -/
def create_message_kwarg_names : List String :=
  ["sender_role", "recipient_role", "message_type", "content",
   "location_type", "location_id"]

/-- Django `Model.__init__` raises `TypeError` when a keyword argument does not
name a field of the model. -/
def djangoCreateMessageLogCheck (kwargNames : List String) : Except PyError Unit :=
  if kwargNames.all (fun k => messageLogFieldNames.contains k) then .ok ()
  else .error .typeError

/-- Sinks a handler can emit an event to: a channel-layer group
(`channel_layer.group_send`) or this session's own websocket (`self.send`). -/
inductive Sink where
  | group (name : String)
  | transport
  deriving DecidableEq, Repr

/-- The channel-layer / websocket events the embedded handlers construct. -/
inductive ChannelEvent where
  | group_acknowledgment_broadcast
      (message_ids : List Nat) (acknowledging_user : String) (acknowledged_at : Nat)
  | broadcast_acknowledgment_from_or
      (message_id : Nat) (message_type : String) (sender_role : String)
      (recipient_role : String) (operating_room_id : Int) (acknowledged_at : Nat)
  | broadcast_acknowledgment
      (message_id : Nat) (message_type : String) (sender_role : String)
      (recipient_role : String) (location_type : String) (location_id : Int)
      (acknowledged_at : Nat)
  | chat_message
      (message_id : Nat) (sender_role : String) (recipient_role : String)
      (message_type : String) (content : String) (location_type : String)
      (location_id : Int) (operating_room_id : Option Int)
      (operating_room_name : Option String) (sent_at : Nat)
  | message_status
      (message_id : Nat) (message_type : String) (status : String) (count : Int)
      (timestamp : Nat)
  | broadcast_user_count (group_name : String) (count : Int)
  | user_count (group : String) (count : Int)
  | acknowledgment_update (message_id : Nat) (message_type : String)
      (acknowledged_at : Nat)
  deriving DecidableEq, Repr

/-- One emission: which sink, which event. -/
def Emitted : Type := Sink × ChannelEvent

instance : DecidableEq Emitted := by
  unfold Emitted
  infer_instance

/- ----------------------------------------------------------------
Presence cache (`django.core.cache`), embedded as an association list.
---------------------------------------------------------------- -/

/-- The cache: key-value pairs (TTLs are not modelled; every claim treated here
is about values, not expiry). -/
def Cache : Type := List (String × Int)

instance : DecidableEq Cache := by
  unfold Cache
  infer_instance

/-- `cache.get(key)` — `None` when absent. -/
def cacheGet (c : Cache) (key : String) : Option Int :=
  (c.find? (fun kv => kv.1 == key)).map (·.2)

/-- `cache.set(key, value, 3600)` (TTL dropped). -/
def cacheSet (c : Cache) (key : String) (value : Int) : Cache :=
  (key, value) :: c.filter (fun kv => kv.1 != key)

/-- `int(current_count) if current_count else 0`: Python truthiness maps both
`None` and `0` to `0`. -/
def readCount (v : Option Int) : Int :=
  match v with
  | some n => if n == 0 then 0 else n
  | none => 0

/-- The count computation of `CommunicationConsumer.update_user_count`
(consumers.py lines 427-434): read-with-default, then `+1` on connect or
`max(0, count - 1)` on disconnect. -/
def update_user_count_newCount (current : Option Int) (connecting : Bool) : Int :=
  let current_count := readCount current
  if connecting then current_count + 1 else max 0 (current_count - 1)

/-- The identical count computation of
`AnesthetistConsumer.update_user_count_in_redis` (consumers.py lines 146-153). -/
def update_user_count_in_redis_newCount (current : Option Int) (connecting : Bool) : Int :=
  let current_count := readCount current
  if connecting then current_count + 1 else max 0 (current_count - 1)

/-- Run a sequence of connect(=increment)/disconnect(=decrement) operations for
one key against the cache, starting from `c`, as
`CommunicationConsumer.update_user_count` does (get, compute, set). -/
def runUserCountOps (key : String) (c : Cache) (ops : List Bool) : Cache :=
  ops.foldl
    (fun c conn => cacheSet c key (update_user_count_newCount (cacheGet c key) conn)) c

/-- The stored count for `key` after running `ops` from an empty cache. -/
def userCountAfter (ops : List Bool) : Int :=
  readCount (cacheGet (runUserCountOps "user_count:g" [] ops) "user_count:g")

/-- Number of increments (connect events) in a sequence. -/
def countIncs (ops : List Bool) : Int :=
  (ops.filter (fun b => b)).length

/-- Number of decrements (disconnect events) in a sequence. -/
def countDecs (ops : List Bool) : Int :=
  (ops.filter (fun b => !b)).length

/- ----------------------------------------------------------------
CommunicationConsumer: session identity and the acknowledge path.
---------------------------------------------------------------- -/

/-- Python `str.lower()`, embedded character-wise (ASCII suffices for the role
names used as group-key segments). -/
def pyLower (s : String) : String := ⟨s.data.map Char.toLower⟩

/-- A `CommunicationConsumer` session's URL-route bindings
(consumers.py lines 258-260). -/
structure Session where
  role_name : String
  location_type : String
  location_id : String
  deriving DecidableEq, Repr

/-- `self.room_group_name = f"{role_name.lower()}_{location_type}_{location_id}"`
(consumers.py line 262). -/
def Session.room_group_name (s : Session) : String :=
  pyLower s.role_name ++ "_" ++ s.location_type ++ "_" ++ s.location_id

/-- `CommunicationConsumer._acknowledge_message_db` (consumers.py lines
395-403): fetch the message; set `acknowledged_at` only if it is unset; return
the (possibly updated) message, or `none` on `DoesNotExist`.  Returns the
updated message table alongside. -/
def acknowledge_message_db (msgs : List MessageLog) (message_id : Nat) (now : Nat) :
    List MessageLog × Option MessageLog :=
  match ormGetMessage msgs message_id with
  | none => (msgs, none)
  | some m =>
      let m' := if m.acknowledged_at.isNone then { m with acknowledged_at := some now } else m
      (msgs.map (fun x => if x.id == message_id then m' else x), some m')

/-- `CommunicationConsumer._get_unacknowledged_messages_for_role` (consumers.py
lines 405-420): resolves the role by `name_en`, then returns every message with
`recipient_role=role` and `acknowledged_at IS NULL`.  The `location_type` and
`location_id` parameters are accepted but never used in the query (the source
filters only on recipient role and acknowledgment). -/
def get_unacknowledged_messages_for_role (db : DB) (role_name : String)
    (_location_type _location_id : String) : Except PyError (List MessageLog) := do
  let role ← ormGetRoleByNameEn db role_name
  .ok (db.messages.filter (fun m => m.recipient_role_id == role.id && m.acknowledged_at.isNone))

/-- The bulk-acknowledge loop of `CommunicationConsumer.acknowledge_message`
(lines 334-337): acknowledge each listed message in turn, collecting ids. -/
def bulkAcknowledge (msgs : List MessageLog) (toAck : List MessageLog) (now : Nat) :
    List MessageLog × List Nat :=
  toAck.foldl
    (fun acc msg =>
      let (msgs', _) := acknowledge_message_db acc.1 msg.id now
      (msgs', acc.2 ++ [msg.id]))
    (msgs, [])

/-- The `else` branch of the monitor notification (consumers.py lines 379-393):
builds the `broadcast_acknowledgment` event dict for `anesthetist_broadcast`.
The dict values are evaluated in order (`message.id`, `message.message_type`,
`message.sender_role.name`, `message.recipient_role.name`,
`message.location_type`, `message.location_id`,
`message.acknowledged_at.isoformat()`); `message.location_type` raises
`AttributeError`, so the `group_send` is never reached. -/
def acknowledgeRegularBroadcast (db : DB) (message : MessageLog) (sender : Role) :
    List Emitted × Except PyError Unit :=
  match ormRoleById db message.recipient_role_id with
  | .error e => ([], .error e)
  | .ok recipient =>
    match message.location_type_attr, message.location_id_attr,
        message.acknowledged_at with
    | .ok lt, .ok lid, some ackAt =>
        ([(.group "anesthetist_broadcast",
           .broadcast_acknowledgment message.id message.message_type sender.name
             recipient.name lt lid ackAt)], .ok ())
    | _, _, _ => ([], .error .attributeError)

/-- The monitor-notification tail of `CommunicationConsumer.acknowledge_message`
(lines 350-393).  The source evaluates
`message.sender_role.name_en == 'Anesthetist' and message.location_type == 'operating_room'`:
when the first conjunct is true it reads `message.location_type`, which raises
`AttributeError` (no such field); when it is false, Python short-circuits into
the `else` branch, whose event dict also reads `message.location_type` (line
389) and again raises `AttributeError`.  Events already emitted are preserved;
the error aborts the handler. -/
def acknowledgeMonitorNotify (db : DB) (message : MessageLog) :
    List Emitted × Except PyError Unit :=
  match ormRoleById db message.sender_role_id with
  | .error e => ([], .error e)
  | .ok sender =>
    if sender.name_en == "Anesthetist" then
      match message.location_type_attr with
      | .error e => ([], .error e)
      | .ok lt =>
        if lt == "operating_room" then
          -- `MessageLog.objects.filter(..., location_type='operating_room', ...)`
          -- would raise FieldError (no such field); unreachable either way.
          ([], .error .fieldError)
        else
          acknowledgeRegularBroadcast db message sender
    else
      acknowledgeRegularBroadcast db message sender

/-- Step 2 of `CommunicationConsumer.acknowledge_message` (consumers.py lines
327-348): `if acknowledging_role in ['Nurse', 'Surgeon'] and
message.recipient_role.name_en == acknowledging_role:` (the second conjunct,
and its FK load, is only evaluated when the first holds) — then query all
unacknowledged messages for that role (the query ignores the session's
location), acknowledge them all, and send one `group_acknowledgment_broadcast`
with their ids to the room group. -/
def acknowledgePeerStep (s : Session) (db1 : DB) (message : MessageLog)
    (acknowledging_role : String) (now : Nat) :
    DB × List Emitted × Except PyError Unit :=
  if acknowledging_role == "Nurse" || acknowledging_role == "Surgeon" then
    match ormRoleById db1 message.recipient_role_id with
    | .error e => (db1, [], .error e)
    | .ok recipient =>
      if recipient.name_en == acknowledging_role then
        match get_unacknowledged_messages_for_role db1 acknowledging_role
            s.location_type s.location_id with
        | .error e => (db1, [], .error e)
        | .ok unacknowledged_messages =>
          let (msgs2, message_ids) := bulkAcknowledge db1.messages unacknowledged_messages now
          ({ db1 with messages := msgs2 },
           [(.group s.room_group_name,
             .group_acknowledgment_broadcast message_ids acknowledging_role now)],
           .ok ())
      else
        (db1, [], .ok ())
  else
    (db1, [], .ok ())

/-- `CommunicationConsumer.acknowledge_message` (consumers.py lines 318-393).
Returns the updated database, the ordered list of events emitted before any
exception, and the outcome.  Steps: (1) `_acknowledge_message_db`; if the id is
unknown the handler just returns; (2) the peer bulk-acknowledgment step
(`acknowledgePeerStep`); (3) notify the anesthetist broadcast group — which
raises `AttributeError`, see `acknowledgeMonitorNotify`.  An exception in step
2 aborts the handler before step 3, matching Python exception propagation. -/
def acknowledge_message (s : Session) (db : DB) (message_id : Nat)
    (acknowledging_role : String) (now : Nat) :
    DB × List Emitted × Except PyError Unit :=
  match acknowledge_message_db db.messages message_id now with
  | (msgs1, none) => ({ db with messages := msgs1 }, [], .ok ())
  | (msgs1, some message) =>
    match acknowledgePeerStep s { db with messages := msgs1 } message
        acknowledging_role now with
    | (db2, events2, .error e) => (db2, events2, .error e)
    | (db2, events2, .ok ()) =>
      let (events3, res3) := acknowledgeMonitorNotify db2 message
      (db2, events2 ++ events3, res3)

/- ----------------------------------------------------------------
send_message path: payloads, _create_message_db, handle_send_message.
---------------------------------------------------------------- -/

/-- The JSON payload of a `send_message` event.  Keys that a given client may
omit are `Option` (Python raises `KeyError` on a missing subscript). -/
structure SendPayload where
  sender_role : String
  recipient_role : String
  message_type : String
  ward_id : String
  operating_room_id : Option String
  location_type : Option String
  location_id : Option String
  deriving DecidableEq, Repr

/-- `data['k']` on an optional key: `KeyError` when absent. -/
def pyGetKey (v : Option String) : Except PyError String :=
  match v with
  | some s => .ok s
  | none => .error .keyError

/-- Python `int(s)`: `ValueError` when the string is not an integer literal. -/
def pyInt (s : String) : Except PyError Int :=
  match s.toInt? with
  | some n => .ok n
  | none => .error .valueError

/-- `AnesthetistConsumer._create_message_db` (consumers.py lines 177-191):
resolves both roles by `name_en`, then calls `MessageLog.objects.create` with
keyword arguments `sender_role`, `recipient_role`, `message_type`, `content`,
`location_type='operating_room'`, `location_id=int(data['operating_room_id'])`.
`location_type`/`location_id` are not fields of `MessageLog`, so the create
call raises `TypeError` whenever it is reached (the `.ok` branch after the
check is dead code; it builds the record the call names, with the model's
defaults for the fields the call does not pass). -/
def anesthetist_create_message_db (db : DB) (data : SendPayload)
    (now freshId : Nat) : Except PyError MessageLog := do
  let sender ← ormGetRoleByNameEn db data.sender_role
  let recipient ← ormGetRoleByNameEn db data.recipient_role
  let orIdStr ← pyGetKey data.operating_room_id
  let _location_id ← pyInt orIdStr
  let () ← djangoCreateMessageLogCheck create_message_kwarg_names
  .ok { id := freshId, hospital_id := 0, sender_role_id := sender.id,
        recipient_role_id := recipient.id, message_type := data.message_type,
        content := data.message_type, operating_room_id := 11, ward_id := 15,
        sent_at := now, acknowledged_at := none, no_users_who_received := 0 }

/-- `CommunicationConsumer._create_message_db` (consumers.py lines 480-504):
same role lookups; picks `location_type`/`location_id` from
`operating_room_id` when present, else from the payload's `location_type` /
`location_id` keys; then the same `MessageLog.objects.create` call with the
same six keyword arguments, which raises `TypeError` whenever reached. -/
def communication_create_message_db (db : DB) (data : SendPayload)
    (now freshId : Nat) : Except PyError MessageLog := do
  let sender ← ormGetRoleByNameEn db data.sender_role
  let recipient ← ormGetRoleByNameEn db data.recipient_role
  let _locPair ←
    match data.operating_room_id with
    | some orId => do
        let n ← pyInt orId
        pure ("operating_room", n)
    | none => do
        let lt ← pyGetKey data.location_type
        let lidStr ← pyGetKey data.location_id
        let n ← pyInt lidStr
        pure (lt, n)
  let () ← djangoCreateMessageLogCheck create_message_kwarg_names
  .ok { id := freshId, hospital_id := 0, sender_role_id := sender.id,
        recipient_role_id := recipient.id, message_type := data.message_type,
        content := data.message_type, operating_room_id := 11, ward_id := 15,
        sent_at := now, acknowledged_at := none, no_users_who_received := 0 }

/-- `AnesthetistConsumer._get_operating_room_name` (lines 200-206): name of the
operating room, or `"OR #<id>"` when it does not exist.  Operating rooms are a
list of (id, name) pairs. -/
def get_operating_room_name (ors : List (Nat × String)) (orId : Int) : String :=
  match ors.find? (fun p => (p.1 : Int) == orId) with
  | some p => p.2
  | none => "OR #" ++ toString orId

/-- `AnesthetistConsumer.get_group_user_count` (lines 160-165):
`int(count) if count else 0`. -/
def get_group_user_count (c : Cache) (group_name : String) : Int :=
  readCount (cacheGet c group_name)

/-- `AnesthetistConsumer.handle_send_message` (consumers.py lines 78-125).
Step 1 persists via `_create_message_db`, which raises for every input, so the
handler aborts before emitting anything; the remaining steps (chat broadcast,
then a user-count read taken only after the broadcast, then the
`message_status` reply) are translated for fidelity but are unreachable. -/
def anesthetist_handle_send_message (db : DB) (ors : List (Nat × String))
    (c : Cache) (data : SendPayload) (now freshId : Nat) :
    Except PyError (List Emitted) := do
  let message ← anesthetist_create_message_db db data now freshId
  let orIdStr ← pyGetKey data.operating_room_id
  let orIdInt ← pyInt orIdStr
  let operating_room_name := get_operating_room_name ors orIdInt
  let recipient_role := data.recipient_role
  let ward_id := data.ward_id
  let group_name :=
    if pyLower recipient_role == "nurse" then "nurse_ward_" ++ ward_id
    else if pyLower recipient_role == "surgeon" then "surgeon_ward_" ++ ward_id
    else pyLower recipient_role ++ "_ward_" ++ ward_id
  let wardIdInt ← pyInt ward_id
  let chat : Emitted :=
    (.group group_name,
     .chat_message message.id data.sender_role recipient_role data.message_type
       data.message_type "ward" wardIdInt (some orIdInt) (some operating_room_name)
       message.sent_at)
  -- `count = await self.get_group_user_count(group_name)` — read AFTER the
  -- group_send above, not a pre-send snapshot; never written to the message.
  let count := get_group_user_count c group_name
  let status : Emitted :=
    (.transport,
     .message_status message.id data.message_type "sent" count message.sent_at)
  .ok [chat, status]

/-- `CommunicationConsumer.handle_send_message` (consumers.py lines 451-478).
Persists via `_create_message_db` (raises for every input), then would send the
`chat_message` to the recipient group.  This handler reads no user count and
sends no `message_status` reply at all. -/
def communication_handle_send_message (db : DB) (data : SendPayload)
    (now freshId : Nat) : Except PyError (List Emitted) := do
  let message ← communication_create_message_db db data now freshId
  let recipient_role := data.recipient_role
  let ward_id := data.ward_id
  let location_id ← pyInt ward_id
  let group_name := pyLower recipient_role ++ "_ward_" ++ ward_id
  .ok [(.group group_name,
        .chat_message message.id data.sender_role recipient_role data.message_type
          data.message_type "ward" location_id none none message.sent_at)]

/- ----------------------------------------------------------------
receive dispatch (consumers.py lines 69-76 and 307-316).
---------------------------------------------------------------- -/

/-- Which handler a `receive` call dispatches an inbound event to. -/
inductive Dispatch where
  | handle_send
  | handle_acknowledge
  | handle_user_count
  | ignored
  deriving DecidableEq, Repr

/-- `AnesthetistConsumer.receive` (lines 69-76): dispatches `send_message` and
`get_user_count`; every other type (including `acknowledge`) falls through the
`if`/`elif` chain with no `else` and is silently ignored. -/
def anesthetist_receive_dispatch (t : String) : Dispatch :=
  if t == "send_message" then .handle_send
  else if t == "get_user_count" then .handle_user_count
  else .ignored

/-- `CommunicationConsumer.receive` (lines 307-316): dispatches `acknowledge`
and `send_message`; every other type (including `get_user_count`) is silently
ignored. -/
def communication_receive_dispatch (t : String) : Dispatch :=
  if t == "acknowledge" then .handle_acknowledge
  else if t == "send_message" then .handle_send
  else .ignored

/- ----------------------------------------------------------------
cache_utils.py: reset_connection_counts and its three fallbacks.
---------------------------------------------------------------- -/

/-- Python `needle in hay` on strings. -/
def strContains (hay needle : String) : Bool :=
  (List.range (hay.toList.length + 1)).any
    (fun i => needle.toList.isPrefixOf (hay.toList.drop i))

/-- `USER_COUNT_PATTERN = "user_count:*"`, as the glob matchers of
`delete_pattern` and `keys` interpret it: keys starting with `user_count:`. -/
def matchesUserCountPattern (key : String) : Bool :=
  "user_count:".toList.isPrefixOf key.toList

/-- Django's LocMemCache stores an entry for api key `k` under the internal
dictionary key `":1:" ++ k` (key prefix `""`, version `1`). -/
def locmemInternalKey (k : String) : String := ":1:" ++ k

/-- The cache backend shapes `reset_connection_counts` must cope with
(cache_utils.py): one with a working `delete_pattern`, one with only
`keys`/`delete_many`, a LocMemCache whose internal `_cache` dict is reachable,
and a bare backend supporting none of these.  Each carries its store as api-key
to value pairs. -/
inductive CacheBackend where
  | withDeletePattern (store : List (String × Int))
  | withKeysScan (store : List (String × Int))
  | locmem (store : List (String × Int))
  | bare (store : List (String × Int))
  deriving DecidableEq, Repr

/-- `_delete_with_delete_pattern` (cache_utils.py lines 14-24): only a backend
exposing a working `delete_pattern` handles it (deleting every key matching
`user_count:*`); all others report `False` (`none`). -/
def delete_with_delete_pattern (b : CacheBackend) : Option CacheBackend :=
  match b with
  | .withDeletePattern store =>
      some (.withDeletePattern (store.filter (fun kv => !matchesUserCountPattern kv.1)))
  | _ => none

/-- `_delete_with_keys` (cache_utils.py lines 27-45): a backend exposing `keys`
enumerates the keys matching `user_count:*` and bulk-deletes them via
`delete_many`; returns `True` even when nothing matched.  Other backends
report `False`. -/
def delete_with_keys (b : CacheBackend) : Option CacheBackend :=
  match b with
  | .withKeysScan store =>
      some (.withKeysScan (store.filter (fun kv => !matchesUserCountPattern kv.1)))
  | _ => none

/-- `_delete_with_locmem` (cache_utils.py lines 48-64): reaches into the
in-memory backend's `_cache` dict and pops every internal key `k` with
`"user_count:" in str(k)` — a SUBSTRING test on the version-prefixed internal
key, not a namespace-prefix test.  Other backends report `False`. -/
def delete_with_locmem (b : CacheBackend) : Option CacheBackend :=
  match b with
  | .locmem store =>
      some (.locmem (store.filter
        (fun kv => !strContains (locmemInternalKey kv.1) "user_count:")))
  | _ => none

/-- Which branch of `reset_connection_counts` ran. -/
inductive ClearMethod where
  | via_delete_pattern
  | via_keys_scan
  | via_locmem
  | failed_logged
  deriving DecidableEq, Repr

/-- `reset_connection_counts` (cache_utils.py lines 67-83): try
`_delete_with_delete_pattern`, then `_delete_with_keys`, then
`_delete_with_locmem`, in that order; when none applies, log a warning and
return normally (a total function — no exception escapes). -/
def reset_connection_counts (b : CacheBackend) : CacheBackend × ClearMethod :=
  match delete_with_delete_pattern b with
  | some b' => (b', .via_delete_pattern)
  | none =>
    match delete_with_keys b with
    | some b' => (b', .via_keys_scan)
    | none =>
      match delete_with_locmem b with
      | some b' => (b', .via_locmem)
      | none => (b, .failed_logged)

/-- Look a key up in a backend's store. -/
def CacheBackend.lookup (b : CacheBackend) (k : String) : Option Int :=
  match b with
  | .withDeletePattern store => (store.find? (fun kv => kv.1 == k)).map (·.2)
  | .withKeysScan store => (store.find? (fun kv => kv.1 == k)).map (·.2)
  | .locmem store => (store.find? (fun kv => kv.1 == k)).map (·.2)
  | .bare store => (store.find? (fun kv => kv.1 == k)).map (·.2)

/- ----------------------------------------------------------------
Interleaving model of update_user_count for the atomicity claim.
update_user_count (lines 422-437) is `cache.get` followed by `cache.set`;
between the two steps other sessions may run.
---------------------------------------------------------------- -/

/-- Local state of one in-flight `update_user_count` call: its program counter
(0 = about to `cache.get`, 1 = about to `cache.set`, 2 = done) and the value
its `cache.get` returned. -/
structure CallState where
  connecting : Bool
  pc : Nat
  readVal : Option Int
  deriving DecidableEq, Repr

/-- Run one micro-step of session `i`'s `update_user_count` call against the
shared cache: pc 0 performs the `cache.get`, pc 1 performs the `cache.set` of
the value computed from what was read. -/
def stepCall (key : String) (c : Cache) (s : CallState) : Cache × CallState :=
  match s.pc with
  | 0 => (c, { s with pc := 1, readVal := cacheGet c key })
  | 1 => (cacheSet c key (update_user_count_newCount s.readVal s.connecting),
          { s with pc := 2 })
  | _ => (c, s)

/-- Execute a schedule (list of session indices) over two concurrent
`update_user_count` calls sharing one key. -/
def runSchedule (key : String) (c : Cache) (s0 s1 : CallState) :
    List (Fin 2) → Cache × CallState × CallState
  | [] => (c, s0, s1)
  | i :: rest =>
      match i with
      | 0 =>
          let (c', s0') := stepCall key c s0
          runSchedule key c' s0' s1 rest
      | 1 =>
          let (c', s1') := stepCall key c s1
          runSchedule key c' s0 s1' rest

/-- A fresh increment call (`update_user_count(True)`), not yet started. -/
def freshInc : CallState := { connecting := true, pc := 0, readVal := none }

/-- Final stored count after two concurrent increments of the same key executed
under `sched`, starting from an empty cache. -/
def twoIncrementsFinal (sched : List (Fin 2)) : Int :=
  readCount (cacheGet (runSchedule "user_count:g" [] freshInc freshInc sched).1 "user_count:g")

/-- Whether a schedule runs both calls to completion. -/
def scheduleComplete (sched : List (Fin 2)) : Bool :=
  let (_, s0, s1) := runSchedule "user_count:g" [] freshInc freshInc sched
  s0.pc == 2 && s1.pc == 2

/- ----------------------------------------------------------------
AnesthetistConsumer's monitor-side acknowledgment handlers.
---------------------------------------------------------------- -/

/-- `AnesthetistConsumer.broadcast_acknowledgment` (consumers.py lines
218-237): re-fetches the message; when it exists and
`message.sender_role.name_en == 'Anesthetist'` holds, the second conjunct reads
`message.location_type` and raises `AttributeError`; when the sender is not the
monitoring role the `and` short-circuits and nothing is forwarded. -/
def anesthetist_on_broadcast_acknowledgment (db : DB) (event_message_id : Nat)
    (event_message_type : String) (event_acknowledged_at : Nat) :
    List Emitted × Except PyError Unit :=
  match ormGetMessage db.messages event_message_id with
  | none => ([], .ok ())
  | some message =>
    match ormRoleById db message.sender_role_id with
    | .error e => ([], .error e)
    | .ok sender =>
      if sender.name_en == "Anesthetist" then
        match message.location_type_attr with
        | .error e => ([], .error e)
        | .ok lt =>
          if lt == "operating_room" then
            ([(.transport, .acknowledgment_update event_message_id
                event_message_type event_acknowledged_at)], .ok ())
          else ([], .ok ())
      else ([], .ok ())

/-- `AnesthetistConsumer.broadcast_acknowledgment_from_or` (lines 239-247):
unconditionally forwards an `acknowledgment_update` to the transport. -/
def anesthetist_on_broadcast_acknowledgment_from_or (event_message_id : Nat)
    (event_message_type : String) (event_acknowledged_at : Nat) : List Emitted :=
  [(.transport, .acknowledgment_update event_message_id event_message_type
      event_acknowledged_at)]

/- ----------------------------------------------------------------
Concrete fixtures used by the claim evaluations below.
---------------------------------------------------------------- -/

/-- Nurse role row (id 1). -/
def nurseRole : Role := { id := 1, name := "Nurse-name", name_en := "Nurse" }

/-- Surgeon role row (id 2). -/
def surgeonRole : Role := { id := 2, name := "Surgeon-name", name_en := "Surgeon" }

/-- Anesthetist role row (id 3). -/
def anesthetistRole : Role :=
  { id := 3, name := "Anesthetist-name", name_en := "Anesthetist" }

/-- The three roles of the system. -/
def theRoles : List Role := [nurseRole, surgeonRole, anesthetistRole]

/-- An unacknowledged message to the nurses of ward 5 (sent by an
anesthetist from operating room 3). -/
def msgWard5 : MessageLog :=
  { id := 1, hospital_id := 1, sender_role_id := 3, recipient_role_id := 1,
    message_type := "SURGERY_DONE", content := "SURGERY_DONE",
    operating_room_id := 3, ward_id := 5, sent_at := 10,
    acknowledged_at := none, no_users_who_received := 0 }

/-- An unacknowledged message to the nurses of ward 7 — a DIFFERENT location
from `msgWard5`. -/
def msgWard7 : MessageLog :=
  { id := 2, hospital_id := 1, sender_role_id := 3, recipient_role_id := 1,
    message_type := "CAN_ACCEPT_PATIENTS", content := "CAN_ACCEPT_PATIENTS",
    operating_room_id := 3, ward_id := 7, sent_at := 11,
    acknowledged_at := none, no_users_who_received := 0 }

/-- Database with the two nurse messages above. -/
def dbTwoWards : DB := { roles := theRoles, messages := [msgWard5, msgWard7] }

/-- A nurse session at ward 5; its room group is `nurse_ward_5`. -/
def nurseWard5Session : Session :=
  { role_name := "Nurse", location_type := "ward", location_id := "5" }

/- ----------------------------------------------------------------
Helper lemmas: presence-count folds.
---------------------------------------------------------------- -/

/-- Value-level fold of the per-operation count update. -/
def afterOps (v : Int) (ops : List Bool) : Int :=
  ops.foldl (fun v conn => if conn then v + 1 else max 0 (v - 1)) v

lemma readCount_some (v : Int) : readCount (some v) = v := by
  unfold readCount
  by_cases h : v = 0 <;> simp [h]

lemma cacheGet_set_same (c : Cache) (k : String) (v : Int) :
    cacheGet (cacheSet c k v) k = some v := by
  simp [cacheGet, cacheSet]

lemma runUserCountOps_get (key : String) :
    ∀ (ops : List Bool) (c : Cache),
      readCount (cacheGet (runUserCountOps key c ops) key) =
        afterOps (readCount (cacheGet c key)) ops := by
  intro ops
  induction ops with
  | nil => intro c; rfl
  | cons conn rest ih =>
      intro c
      show readCount (cacheGet (runUserCountOps key
          (cacheSet c key (update_user_count_newCount (cacheGet c key) conn)) rest) key) = _
      rw [ih]
      unfold afterOps
      rw [List.foldl_cons]
      congr 1
      rw [cacheGet_set_same, readCount_some]
      rfl

lemma userCountAfter_eq (ops : List Bool) : userCountAfter ops = afterOps 0 ops := by
  unfold userCountAfter
  rw [runUserCountOps_get]
  rfl

lemma afterOps_nonneg : ∀ (ops : List Bool) (v : Int), 0 ≤ v → 0 ≤ afterOps v ops := by
  intro ops
  induction ops with
  | nil => intro v hv; exact hv
  | cons conn rest ih =>
      intro v hv
      unfold afterOps
      rw [List.foldl_cons]
      cases conn with
      | true => exact ih (v + 1) (by omega)
      | false => exact ih (max 0 (v - 1)) (le_max_left _ _)

lemma countIncs_cons_true (ops : List Bool) :
    countIncs (true :: ops) = countIncs ops + 1 := by
  simp [countIncs, List.filter]

lemma countIncs_cons_false (ops : List Bool) :
    countIncs (false :: ops) = countIncs ops := by
  simp [countIncs, List.filter]

lemma countDecs_cons_true (ops : List Bool) :
    countDecs (true :: ops) = countDecs ops := by
  simp [countDecs, List.filter]

lemma countDecs_cons_false (ops : List Bool) :
    countDecs (false :: ops) = countDecs ops + 1 := by
  simp [countDecs, List.filter]

lemma afterOps_ge : ∀ (ops : List Bool) (v : Int),
    v + countIncs ops - countDecs ops ≤ afterOps v ops := by
  intro ops
  induction ops with
  | nil => intro v; simp [afterOps, countIncs, countDecs]
  | cons conn rest ih =>
      intro v
      unfold afterOps
      rw [List.foldl_cons]
      cases conn with
      | true =>
          rw [countIncs_cons_true, countDecs_cons_true]
          have h := ih (v + 1)
          unfold afterOps at h
          simp only [if_true]
          omega
      | false =>
          rw [countIncs_cons_false, countDecs_cons_false]
          have h := ih (max 0 (v - 1))
          unfold afterOps at h
          simp only [Bool.false_eq_true, if_false]
          have : v - 1 ≤ max 0 (v - 1) := le_max_right _ _
          omega

lemma afterOps_eq_of_no_clamp :
    ∀ (ops : List Bool) (v : Int), 0 ≤ v →
      (∀ k, k ≤ ops.length →
        countDecs (ops.take k) ≤ countIncs (ops.take k) + v) →
      afterOps v ops = v + countIncs ops - countDecs ops := by
  intro ops
  induction ops with
  | nil => intro v _ _; simp [afterOps, countIncs, countDecs]
  | cons conn rest ih =>
      intro v hv hpre
      unfold afterOps
      rw [List.foldl_cons]
      cases conn with
      | true =>
          rw [countIncs_cons_true, countDecs_cons_true]
          have h := ih (v + 1) (by omega) (fun k hk => by
            have := hpre (k + 1) (by simpa using Nat.succ_le_succ hk)
            rw [List.take_succ_cons, countIncs_cons_true, countDecs_cons_true] at this
            omega)
          unfold afterOps at h
          simp only [if_true]
          omega
      | false =>
          rw [countIncs_cons_false, countDecs_cons_false]
          have h1 : (1 : Int) ≤ v := by
            have := hpre 1 (by simp)
            simp [countIncs, countDecs, List.filter] at this
            omega
          have hmax : max 0 (v - 1) = v - 1 := max_eq_right (by omega)
          have h := ih (v - 1) (by omega) (fun k hk => by
            have := hpre (k + 1) (by simpa using Nat.succ_le_succ hk)
            rw [List.take_succ_cons, countIncs_cons_false, countDecs_cons_false] at this
            omega)
          unfold afterOps at h
          simp only [Bool.false_eq_true, if_false]
          rw [hmax]
          omega

/- ----------------------------------------------------------------
Helper lemmas: acknowledgment persistence.
---------------------------------------------------------------- -/

lemma find_map_of_pred (g : MessageLog → MessageLog) (p : MessageLog → Bool)
    (hg : ∀ x, p (g x) = p x) :
    ∀ l : List MessageLog, (l.map g).find? p = (l.find? p).map g := by
  intro l
  induction l with
  | nil => rfl
  | cons x xs ih =>
      by_cases hp : p x
      · rw [List.map_cons, List.find?_cons_of_pos _ (by rw [hg]; exact hp),
          List.find?_cons_of_pos _ hp]
        rfl
      · rw [List.map_cons,
          List.find?_cons_of_neg _ (by rw [hg]; simpa using hp),
          List.find?_cons_of_neg _ (by simpa using hp), ih]

/-- What `_acknowledge_message_db` does to the message later looked up by any
id `mid`: the found record is updated exactly when its id is the acknowledged
one and its timestamp is unset. -/
lemma ormGetMessage_ackdb (msgs : List MessageLog) (aid now mid : Nat) :
    ormGetMessage (acknowledge_message_db msgs aid now).1 mid =
      (ormGetMessage msgs mid).map (fun x =>
        if x.id == aid then
          (if x.acknowledged_at.isNone then { x with acknowledged_at := some now } else x)
        else x) := by
  unfold acknowledge_message_db ormGetMessage
  cases hfind : msgs.find? (fun m => m.id == aid) with
  | none =>
      cases hx : msgs.find? (fun m => m.id == mid) with
      | none => rfl
      | some x =>
          have hmem : x ∈ msgs := List.mem_of_find?_eq_some hx
          have hnot : ¬ (x.id == aid) = true := List.find?_eq_none.mp hfind x hmem
          have hne : ¬ x.id = aid := by simpa using hnot
          simp [hne]
  | some m =>
      have hb := List.find?_some hfind
      have hmaid : m.id = aid := by simpa using hb
      have hm'id : (if m.acknowledged_at.isNone
          then { m with acknowledged_at := some now } else m).id = m.id := by
        cases hma : m.acknowledged_at <;> simp
      have hg : ∀ x : MessageLog,
          ((if x.id == aid then
              (if m.acknowledged_at.isNone then { m with acknowledged_at := some now } else m)
            else x).id == mid) = (x.id == mid) := by
        intro x
        by_cases hxa : (x.id == aid) = true
        · rw [if_pos hxa, hm'id, hmaid]
          have hxid : x.id = aid := eq_of_beq hxa
          rw [hxid]
        · rw [if_neg hxa]
      rw [find_map_of_pred
        (fun x => if x.id == aid then
            (if m.acknowledged_at.isNone then { m with acknowledged_at := some now } else m)
          else x)
        (fun y => y.id == mid) hg msgs]
      cases hx : msgs.find? (fun m => m.id == mid) with
      | none => rfl
      | some x =>
          simp only [Option.map_some']
          congr 1
          by_cases hxa : (x.id == aid) = true
          · rw [if_pos hxa, if_pos hxa]
            have heqmid : mid = aid := by
              have h1 : x.id = aid := eq_of_beq hxa
              have h2' := List.find?_some hx
              have h2 : x.id = mid := by simpa using h2'
              omega
            subst heqmid
            have hmx : m = x := by
              rw [hfind] at hx
              exact (Option.some.injEq _ _).mp hx
            rw [hmx]
          · rw [if_neg hxa, if_neg hxa]

lemma ormGetMessage_ackdb_preserves (msgs : List MessageLog) (aid now mid : Nat)
    (m : MessageLog) (t : Nat)
    (hfind : ormGetMessage msgs mid = some m) (ht : m.acknowledged_at = some t) :
    ormGetMessage (acknowledge_message_db msgs aid now).1 mid = some m := by
  rw [ormGetMessage_ackdb, hfind]
  simp [ht]

lemma ackdb_snd (msgs : List MessageLog) (aid now : Nat) :
    (acknowledge_message_db msgs aid now).2 =
      (ormGetMessage msgs aid).map (fun m =>
        if m.acknowledged_at.isNone then { m with acknowledged_at := some now } else m) := by
  unfold acknowledge_message_db
  cases h : ormGetMessage msgs aid <;> rfl

lemma ackdb_of_none (msgs : List MessageLog) (aid now : Nat)
    (h : ormGetMessage msgs aid = none) :
    acknowledge_message_db msgs aid now = (msgs, none) := by
  unfold acknowledge_message_db
  rw [h]

lemma bulk_foldl_preserves :
    ∀ (toAck : List MessageLog) (msgs : List MessageLog) (ids : List Nat)
      (now mid : Nat) (m : MessageLog) (t : Nat),
      ormGetMessage msgs mid = some m → m.acknowledged_at = some t →
      ormGetMessage
        (toAck.foldl
          (fun acc msg =>
            let (msgs', _) := acknowledge_message_db acc.1 msg.id now
            (msgs', acc.2 ++ [msg.id]))
          (msgs, ids)).1 mid = some m := by
  intro toAck
  induction toAck with
  | nil => intro msgs ids now mid m t hfind _; exact hfind
  | cons a rest ih =>
      intro msgs ids now mid m t hfind ht
      rw [List.foldl_cons]
      exact ih ((acknowledge_message_db msgs a.id now).1) (ids ++ [a.id]) now mid m t
        (ormGetMessage_ackdb_preserves msgs a.id now mid m t hfind ht) ht

lemma bulkAcknowledge_preserves (msgs toAck : List MessageLog) (now mid : Nat)
    (m : MessageLog) (t : Nat)
    (hfind : ormGetMessage msgs mid = some m) (ht : m.acknowledged_at = some t) :
    ormGetMessage (bulkAcknowledge msgs toAck now).1 mid = some m :=
  bulk_foldl_preserves toAck msgs [] now mid m t hfind ht

/-- The peer bulk step leaves the message table either untouched or replaced by
a bulk acknowledgment over it. -/
lemma acknowledgePeerStep_messages (s : Session) (db1 : DB) (message : MessageLog)
    (role : String) (now : Nat) :
    (acknowledgePeerStep s db1 message role now).1.messages = db1.messages ∨
    ∃ toAck, (acknowledgePeerStep s db1 message role now).1.messages =
      (bulkAcknowledge db1.messages toAck now).1 := by
  unfold acknowledgePeerStep
  by_cases h1 : (role == "Nurse" || role == "Surgeon") = true
  · rw [if_pos h1]
    cases h2 : ormRoleById db1 message.recipient_role_id with
    | error e => left; rfl
    | ok recipient =>
        dsimp only
        by_cases h3 : (recipient.name_en == role) = true
        · rw [if_pos h3]
          cases h4 : get_unacknowledged_messages_for_role db1 role
              s.location_type s.location_id with
          | error e => left; rfl
          | ok unack => right; exact ⟨unack, rfl⟩
        · rw [if_neg h3]; left; rfl
  · rw [if_neg h1]; left; rfl

/-- The full handler's final database is exactly the peer step's database when
the acknowledged message exists. -/
lemma acknowledge_message_fst (s : Session) (db : DB) (mid : Nat) (role : String)
    (now : Nat) (msgs1 : List MessageLog) (m : MessageLog)
    (hdb : acknowledge_message_db db.messages mid now = (msgs1, some m)) :
    (acknowledge_message s db mid role now).1 =
      (acknowledgePeerStep s { db with messages := msgs1 } m role now).1 := by
  unfold acknowledge_message
  rw [hdb]
  dsimp only
  cases hps : acknowledgePeerStep s { db with messages := msgs1 } m role now with
  | mk db2 rest =>
      cases rest with
      | mk ev2 res =>
          cases res with
          | error e => rfl
          | ok u =>
              cases u
              cases hmn : acknowledgeMonitorNotify db2 m with
              | mk ev3 res3 => rfl

/- ----------------------------------------------------------------
Helper lemmas: message creation always raises.
---------------------------------------------------------------- -/

lemma create_check_fails :
    djangoCreateMessageLogCheck create_message_kwarg_names = .error .typeError := by
  rfl

lemma exceptBind_ok {α β : Type} (a : α) (f : α → Except PyError β) :
    (Except.ok a >>= f) = f a := rfl

lemma anesthetist_create_errs (db : DB) (data : SendPayload) (now freshId : Nat) :
    ∃ e, anesthetist_create_message_db db data now freshId = .error e := by
  unfold anesthetist_create_message_db
  cases h1 : ormGetRoleByNameEn db data.sender_role with
  | error e => exact ⟨e, rfl⟩
  | ok sender =>
      simp only [exceptBind_ok]
      cases h2 : ormGetRoleByNameEn db data.recipient_role with
      | error e => exact ⟨e, rfl⟩
      | ok recipient =>
          simp only [exceptBind_ok]
          cases h3 : pyGetKey data.operating_room_id with
          | error e => exact ⟨e, rfl⟩
          | ok orIdStr =>
              simp only [exceptBind_ok]
              cases h4 : pyInt orIdStr with
              | error e => exact ⟨e, rfl⟩
              | ok n => exact ⟨.typeError, rfl⟩

lemma communication_create_errs (db : DB) (data : SendPayload) (now freshId : Nat) :
    ∃ e, communication_create_message_db db data now freshId = .error e := by
  unfold communication_create_message_db
  cases h1 : ormGetRoleByNameEn db data.sender_role with
  | error e => exact ⟨e, rfl⟩
  | ok sender =>
      simp only [exceptBind_ok]
      cases h2 : ormGetRoleByNameEn db data.recipient_role with
      | error e => exact ⟨e, rfl⟩
      | ok recipient =>
          simp only [exceptBind_ok]
          cases h3 : data.operating_room_id with
          | some orId =>
              simp only [exceptBind_ok]
              cases h4 : pyInt orId with
              | error e => exact ⟨e, rfl⟩
              | ok n => exact ⟨.typeError, rfl⟩
          | none =>
              simp only [exceptBind_ok]
              cases h4 : pyGetKey data.location_type with
              | error e => exact ⟨e, rfl⟩
              | ok lt =>
                  simp only [exceptBind_ok]
                  cases h5 : pyGetKey data.location_id with
                  | error e => exact ⟨e, rfl⟩
                  | ok lidStr =>
                      simp only [exceptBind_ok]
                      cases h6 : pyInt lidStr with
                      | error e => exact ⟨e, rfl⟩
                      | ok n => exact ⟨.typeError, rfl⟩

/- ----------------------------------------------------------------
Helper lemmas: cache clearing.
---------------------------------------------------------------- -/

lemma find_filter_not (p : String → Bool) (k : String) :
    ∀ store : List (String × Int),
      ((store.filter (fun kv => !p kv.1)).find? (fun kv => kv.1 == k)) =
        (if p k then none else store.find? (fun kv => kv.1 == k)) := by
  intro store
  induction store with
  | nil => cases hp : p k <;> simp [hp]
  | cons kv rest ih =>
      by_cases hp' : p kv.1 = true
      · rw [List.filter_cons_of_neg (by simp [hp'])]
        rw [ih]
        by_cases hk : kv.1 = k
        · rw [← hk, hp']
          rw [List.find?_cons_of_pos _ (by simp)]
          simp
        · rw [List.find?_cons_of_neg _ (by simp [hk])]
      · rw [List.filter_cons_of_pos (by simp [hp'])]
        by_cases hk : kv.1 = k
        · have hpk : p k = false := by
            rw [← hk]; simpa using hp'
          rw [hpk]
          rw [List.find?_cons_of_pos _ (by simp [hk]),
            List.find?_cons_of_pos _ (by simp [hk])]
          simp
        · rw [List.find?_cons_of_neg _ (by simp [hk]),
            List.find?_cons_of_neg _ (by simp [hk]), ih]

lemma matches_implies_internal_contains (k : String)
    (h : matchesUserCountPattern k = true) :
    strContains (locmemInternalKey k) "user_count:" = true := by
  unfold strContains locmemInternalKey
  rw [List.any_eq_true]
  refine ⟨3, ?_, ?_⟩
  · rw [List.mem_range]
    have : (":1:" ++ k).toList = ":1:".toList ++ k.toList := by
      simp [String.toList, String.data_append]
    rw [this]
    simp
  · have h1 : (":1:" ++ k).toList = ":1:".toList ++ k.toList := by
      simp [String.toList, String.data_append]
    rw [h1]
    have h2 : (":1:".toList ++ k.toList).drop 3 = k.toList := by
      have : (":1:".toList).length = 3 := by rfl
      rw [← this, List.drop_left]
    rw [h2]
    unfold matchesUserCountPattern at h
    exact h

/- ----------------------------------------------------------------
Further concrete fixtures.
---------------------------------------------------------------- -/

/-- `msgWard5` with its acknowledgment timestamp set at 100. -/
def msgWard5Acked : MessageLog := { msgWard5 with acknowledged_at := some 100 }

/-- `msgWard7` with its acknowledgment timestamp set at 100. -/
def msgWard7Acked : MessageLog := { msgWard7 with acknowledged_at := some 100 }

/-- The database after both nurse messages have been acknowledged. -/
def dbBothAcked : DB := { roles := theRoles, messages := [msgWard5Acked, msgWard7Acked] }

/- ----------------------------------------------------------------
Claim theorems.
---------------------------------------------------------------- -/

/-- C1 (code bug): evaluation of the bulk-acknowledgment path on the failing
input.  With message 1 (to Nurse, ward 5) and message 2 (to Nurse, ward 7) both
unacknowledged, a Nurse session at ward 5 acknowledging message 1 acknowledges
message 2 as well — `_get_unacknowledged_messages_for_role` never filters by
location — and the single `group_acknowledgment_broadcast` sent to
`nurse_ward_5` lists exactly `[2]`: it includes the other-location message and
omits the acknowledged message's own id 1, so it does not list "every affected
message id" of the claim ("all N ids" in the spec's testable property); the
handler then raises `AttributeError` at the monitor-notification step. -/
theorem c1_bulk_acknowledgment_failing_run :
    acknowledge_message nurseWard5Session dbTwoWards 1 "Nurse" 100 =
      ({ roles := theRoles, messages := [msgWard5Acked, msgWard7Acked] },
       [(Sink.group "nurse_ward_5",
         ChannelEvent.group_acknowledgment_broadcast [2] "Nurse" 100)],
       Except.error PyError.attributeError) ∧
    msgWard5.id = 1 ∧ msgWard5.ward_id = 5 ∧ msgWard7.id = 2 ∧ msgWard7.ward_id = 7 ∧
    nurseWard5Session.location_type = "ward" ∧ nurseWard5Session.location_id = "5" :=
  ⟨rfl, rfl, rfl, rfl, rfl, rfl, rfl⟩

/-- C2 counterexample: a decrement on an absent key followed by an increment
leaves the stored count at 1, while "(increments − decrements) clamped at 0"
is 0 — per-operation clamping is not global clamping. -/
theorem c2_counterexample_dec_then_inc :
    userCountAfter [false, true] = 1 ∧
    countIncs [false, true] = 1 ∧ countDecs [false, true] = 1 ∧
    userCountAfter [false, true] ≠
      max 0 (countIncs [false, true] - countDecs [false, true]) := by
  refine ⟨by decide, by decide, by decide, by decide⟩

/-- C2 (amended): for every sequence of increments/decrements on one presence
key starting from an absent key, every intermediate stored count is ≥ 0; the
final count is at least (increments − decrements) clamped at 0; and it equals
increments − decrements exactly when no prefix of the sequence has more
decrements than increments (per-operation clamping never fires). -/
theorem c2_presence_fold_amended :
    (∀ (ops : List Bool) (k : Nat), 0 ≤ userCountAfter (ops.take k)) ∧
    (∀ ops : List Bool,
      max 0 (countIncs ops - countDecs ops) ≤ userCountAfter ops) ∧
    (∀ ops : List Bool,
      (∀ k, k ≤ ops.length → countDecs (ops.take k) ≤ countIncs (ops.take k)) →
      userCountAfter ops = countIncs ops - countDecs ops) := by
  refine ⟨?_, ?_, ?_⟩
  · intro ops k
    rw [userCountAfter_eq]
    exact afterOps_nonneg _ 0 le_rfl
  · intro ops
    rw [userCountAfter_eq]
    have h1 := afterOps_ge ops 0
    have h2 := afterOps_nonneg ops 0 le_rfl
    exact max_le h2 (by omega)
  · intro ops hpre
    rw [userCountAfter_eq]
    have h := afterOps_eq_of_no_clamp ops 0 le_rfl
      (fun k hk => by have := hpre k hk; omega)
    omega

/-- Witness for C2's amended theorem at the concrete sequence
inc, inc, dec. -/
theorem c2_presence_fold_amended_witness :
    userCountAfter [true, true, false] =
      countIncs [true, true, false] - countDecs [true, true, false] :=
  c2_presence_fold_amended.2.2 [true, true, false] (by decide)

/-- C3 counterexample: acknowledging message 1 a second time (it already
carries timestamp 100) emits ANOTHER `group_acknowledgment_broadcast` to the
room group (here with an empty id list), and the handler again raises
`AttributeError` at the monitor step — so the second acknowledgment is neither
broadcast-free nor error-free, refuting "produces no duplicate broadcast" and
"is not an error".  The timestamps themselves stay at 100. -/
theorem c3_counterexample_second_ack_rebroadcast :
    acknowledge_message nurseWard5Session dbBothAcked 1 "Nurse" 200 =
      (dbBothAcked,
       [(Sink.group "nurse_ward_5",
         ChannelEvent.group_acknowledgment_broadcast [] "Nurse" 200)],
       Except.error PyError.attributeError) ∧
    msgWard5Acked.acknowledged_at = some 100 :=
  ⟨rfl, rfl⟩

/-- C3 (amended): an already-set acknowledgment timestamp is never overwritten
or cleared by any later `acknowledge` handling (for any session, role and
time); but the handler is not a no-op on re-acknowledgment: it re-publishes a
`group_acknowledgment_broadcast` to the room group when the acknowledging role
matches the recipient role, and its monitor-notification step raises
`AttributeError` (on first and repeat acknowledgments alike). -/
theorem c3_ack_timestamp_immutable_amended
    (s : Session) (db : DB) (mid : Nat) (role : String) (now : Nat)
    (m : MessageLog) (t : Nat)
    (hfind : ormGetMessage db.messages mid = some m)
    (ht : m.acknowledged_at = some t) :
    ormGetMessage (acknowledge_message s db mid role now).1.messages mid = some m ∧
    (acknowledge_message nurseWard5Session dbBothAcked 1 "Nurse" 200).2 =
      ([(Sink.group "nurse_ward_5",
         ChannelEvent.group_acknowledgment_broadcast [] "Nurse" 200)],
       Except.error PyError.attributeError) := by
  constructor
  · have hsnd : (acknowledge_message_db db.messages mid now).2 = some m := by
      rw [ackdb_snd, hfind]
      simp [ht]
    have hfst : ormGetMessage (acknowledge_message_db db.messages mid now).1 mid = some m :=
      ormGetMessage_ackdb_preserves db.messages mid now mid m t hfind ht
    have hdb : acknowledge_message_db db.messages mid now =
        ((acknowledge_message_db db.messages mid now).1, some m) := by
      rw [← hsnd]
    rw [acknowledge_message_fst s db mid role now _ m hdb]
    rcases acknowledgePeerStep_messages s
        { db with messages := (acknowledge_message_db db.messages mid now).1 }
        m role now with h | ⟨toAck, h⟩
    · rw [h]; exact hfst
    · rw [h]
      exact bulkAcknowledge_preserves _ toAck now mid m t hfst ht
  · rfl

/-- Witness for C3's amended theorem: re-acknowledging the already-acknowledged
message 1 of `dbBothAcked` leaves its record (timestamp 100) unchanged. -/
theorem c3_ack_timestamp_immutable_witness :
    ormGetMessage (acknowledge_message nurseWard5Session dbBothAcked 1 "Surgeon" 300).1.messages 1 =
      some msgWard5Acked :=
  (c3_ack_timestamp_immutable_amended nurseWard5Session dbBothAcked 1 "Surgeon" 300
    msgWard5Acked 100 (by decide) (by decide)).1

/-- C4 (code bug): every `send_message` handling aborts inside the persistence
step (`_create_message_db` raises for every input — see C5), so no chat
broadcast is published, no presence count is read, nothing is recorded on a
message record, and no `message_status` reply is ever sent — for the
monitoring-role handler and the generic handler alike. -/
theorem c4_send_status_never_produced
    (db : DB) (ors : List (Nat × String)) (c : Cache) (data : SendPayload)
    (now freshId : Nat) :
    (∃ e, anesthetist_handle_send_message db ors c data now freshId = .error e) ∧
    (∃ e, communication_handle_send_message db data now freshId = .error e) := by
  constructor
  · obtain ⟨e, he⟩ := anesthetist_create_errs db data now freshId
    refine ⟨e, ?_⟩
    unfold anesthetist_handle_send_message
    rw [he]
    rfl
  · obtain ⟨e, he⟩ := communication_create_errs db data now freshId
    refine ⟨e, ?_⟩
    unfold communication_handle_send_message
    rw [he]
    rfl

/-- C5: both `_create_message_db` implementations pass the keyword arguments
`location_type` and `location_id` (and omit the required `hospital`) to
`MessageLog.objects.create`, while the model defines `operating_room`, `ward`
and `hospital` and no `location_type`/`location_id`; consequently message
creation raises for every input (role-lookup `DoesNotExist` or the create
call's `TypeError`) and never produces a record. -/
theorem c5_create_message_always_raises
    (db : DB) (data : SendPayload) (now freshId : Nat) :
    (∃ e, anesthetist_create_message_db db data now freshId = .error e) ∧
    (∃ e, communication_create_message_db db data now freshId = .error e) ∧
    ("location_type" ∈ create_message_kwarg_names ∧
     "location_id" ∈ create_message_kwarg_names ∧
     "hospital" ∉ create_message_kwarg_names) ∧
    ("location_type" ∉ messageLogFieldNames ∧
     "location_id" ∉ messageLogFieldNames ∧
     "hospital" ∈ messageLogFieldNames ∧
     "operating_room" ∈ messageLogFieldNames ∧
     "ward" ∈ messageLogFieldNames) :=
  ⟨anesthetist_create_errs db data now freshId,
   communication_create_errs db data now freshId,
   by decide, by decide⟩

/-- C6 counterexample: acknowledging the unknown message id 99 returns with the
database unchanged, NO event emitted (in particular no error event sent to the
session's transport) and a normal outcome — the failure is silently swallowed,
refuting "an error is reported to the calling session". -/
theorem c6_counterexample_unknown_id_silent :
    acknowledge_message nurseWard5Session dbTwoWards 99 "Nurse" 100 =
      (dbTwoWards, [], Except.ok ()) ∧
    ormGetMessage dbTwoWards.messages 99 = none :=
  ⟨rfl, rfl⟩

/-- C6 (amended): when the acknowledged message id does not exist, the handler
is a complete silent no-op: no acknowledgment state changes, no broadcast is
published, the session stays open (normal return) — and NO error is reported
to the caller. -/
theorem c6_unknown_id_noop_amended
    (s : Session) (db : DB) (mid : Nat) (role : String) (now : Nat)
    (h : ormGetMessage db.messages mid = none) :
    acknowledge_message s db mid role now = (db, [], Except.ok ()) := by
  unfold acknowledge_message
  rw [ackdb_of_none db.messages mid now h]

/-- Witness for C6's amended theorem at the unknown id 77. -/
theorem c6_unknown_id_noop_witness :
    acknowledge_message nurseWard5Session dbTwoWards 77 "Surgeon" 5 =
      (dbTwoWards, [], Except.ok ()) :=
  c6_unknown_id_noop_amended nurseWard5Session dbTwoWards 77 "Surgeon" 5 (by decide)

/-- C7 (code bug): the monitor-notification step reads
`message.location_type`, which no longer exists on `MessageLog`, so for every
existing message the handler raises `AttributeError` and NO per-message event
is ever published to `anesthetist_broadcast` — in the non-peer run the event
list is empty, and in the peer bulk run no emitted event targets the monitor
group; the monitoring session's own `broadcast_acknowledgment` filter raises
the same way on monitor-sent messages. -/
theorem c7_monitor_notification_always_raises :
    (acknowledge_message nurseWard5Session dbTwoWards 1 "Anesthetist" 100).2 =
      ([], Except.error PyError.attributeError) ∧
    ((acknowledge_message nurseWard5Session dbTwoWards 1 "Nurse" 100).2.1.all
      (fun ev => ev.1 != Sink.group "anesthetist_broadcast")) = true ∧
    anesthetist_on_broadcast_acknowledgment dbBothAcked 1 "SURGERY_DONE" 100 =
      ([], Except.error PyError.attributeError) :=
  ⟨rfl, rfl, rfl⟩

/-- C8 counterexample: the generic session ignores `get_user_count` and the
monitoring session ignores `acknowledge`, although the claim says all three
recognized types are dispatched for every session regardless of role. -/
theorem c8_counterexample_dispatch_gaps :
    communication_receive_dispatch "get_user_count" = Dispatch.ignored ∧
    anesthetist_receive_dispatch "acknowledge" = Dispatch.ignored :=
  ⟨rfl, rfl⟩

/-- C8 (amended): the generic session dispatches exactly `acknowledge` and
`send_message`; the monitoring session dispatches exactly `send_message` and
`get_user_count`; each session silently ignores every other inbound type (no
error, no state change) — including the remaining recognized type of the other
session class. -/
theorem c8_dispatch_amended :
    communication_receive_dispatch "acknowledge" = Dispatch.handle_acknowledge ∧
    communication_receive_dispatch "send_message" = Dispatch.handle_send ∧
    (∀ t : String, t ≠ "acknowledge" → t ≠ "send_message" →
      communication_receive_dispatch t = Dispatch.ignored) ∧
    anesthetist_receive_dispatch "send_message" = Dispatch.handle_send ∧
    anesthetist_receive_dispatch "get_user_count" = Dispatch.handle_user_count ∧
    (∀ t : String, t ≠ "send_message" → t ≠ "get_user_count" →
      anesthetist_receive_dispatch t = Dispatch.ignored) := by
  refine ⟨rfl, rfl, ?_, rfl, rfl, ?_⟩
  · intro t h1 h2
    unfold communication_receive_dispatch
    rw [if_neg (by simp [h1]), if_neg (by simp [h2])]
  · intro t h1 h2
    unfold anesthetist_receive_dispatch
    rw [if_neg (by simp [h1]), if_neg (by simp [h2])]

/-- Witness for C8's amended theorem at the unrecognized type `heartbeat`. -/
theorem c8_dispatch_amended_witness :
    communication_receive_dispatch "heartbeat" = Dispatch.ignored ∧
    anesthetist_receive_dispatch "heartbeat" = Dispatch.ignored :=
  ⟨c8_dispatch_amended.2.2.1 "heartbeat" (by decide) (by decide),
   c8_dispatch_amended.2.2.2.2.2 "heartbeat" (by decide) (by decide)⟩

/-- C9 counterexample: on the in-memory fallback, the key `zz_user_count:b` is
NOT in the presence namespace (it does not start with `user_count:`), yet
`reset_connection_counts` removes it, because `_delete_with_locmem` matches the
SUBSTRING `user_count:` inside the version-prefixed internal key — refuting
"leaves all other keys unchanged". -/
theorem c9_counterexample_locmem_substring :
    reset_connection_counts
        (.locmem [("user_count:nurse_ward_1", 5), ("zz_user_count:b", 3)]) =
      (.locmem [], .via_locmem) ∧
    matchesUserCountPattern "zz_user_count:b" = false :=
  ⟨rfl, rfl⟩

/-- C9 (amended): `reset_connection_counts` removes every key of the presence
namespace under each of the three supported backend shapes, tried in the order
pattern-deletion, key scan, in-memory fallback; the first two shapes leave all
other keys unchanged, while the in-memory fallback preserves exactly the keys
whose version-prefixed internal form does not contain the substring
`user_count:` (so it can also delete keys outside the namespace); when no
shape applies, the function logs and returns normally without raising. -/
theorem c9_reset_counts_amended :
    (∀ (store : List (String × Int)) (k : String),
      matchesUserCountPattern k = true →
        ((reset_connection_counts (.withDeletePattern store)).1.lookup k = none ∧
         (reset_connection_counts (.withKeysScan store)).1.lookup k = none ∧
         (reset_connection_counts (.locmem store)).1.lookup k = none)) ∧
    (∀ (store : List (String × Int)) (k : String),
      matchesUserCountPattern k = false →
        ((reset_connection_counts (.withDeletePattern store)).1.lookup k =
           CacheBackend.lookup (.withDeletePattern store) k ∧
         (reset_connection_counts (.withKeysScan store)).1.lookup k =
           CacheBackend.lookup (.withKeysScan store) k)) ∧
    (∀ (store : List (String × Int)) (k : String),
      strContains (locmemInternalKey k) "user_count:" = false →
        (reset_connection_counts (.locmem store)).1.lookup k =
          CacheBackend.lookup (.locmem store) k) ∧
    (∀ store : List (String × Int),
      (reset_connection_counts (.withDeletePattern store)).2 = .via_delete_pattern ∧
      (reset_connection_counts (.withKeysScan store)).2 = .via_keys_scan ∧
      (reset_connection_counts (.locmem store)).2 = .via_locmem ∧
      reset_connection_counts (.bare store) = (.bare store, .failed_logged)) := by
  refine ⟨?_, ?_, ?_, ?_⟩
  · intro store k h
    refine ⟨?_, ?_, ?_⟩
    · show ((store.filter (fun kv => !matchesUserCountPattern kv.1)).find?
          (fun kv => kv.1 == k)).map (·.2) = none
      rw [find_filter_not, if_pos h]
      rfl
    · show ((store.filter (fun kv => !matchesUserCountPattern kv.1)).find?
          (fun kv => kv.1 == k)).map (·.2) = none
      rw [find_filter_not, if_pos h]
      rfl
    · show ((store.filter (fun kv =>
            !strContains (locmemInternalKey kv.1) "user_count:")).find?
          (fun kv => kv.1 == k)).map (·.2) = none
      rw [find_filter_not (fun key => strContains (locmemInternalKey key) "user_count:")
        k store, if_pos (matches_implies_internal_contains k h)]
      rfl
  · intro store k h
    constructor
    · show ((store.filter (fun kv => !matchesUserCountPattern kv.1)).find?
          (fun kv => kv.1 == k)).map (·.2) = _
      rw [find_filter_not, if_neg (by simp [h])]
      rfl
    · show ((store.filter (fun kv => !matchesUserCountPattern kv.1)).find?
          (fun kv => kv.1 == k)).map (·.2) = _
      rw [find_filter_not, if_neg (by simp [h])]
      rfl
  · intro store k h
    show ((store.filter (fun kv =>
          !strContains (locmemInternalKey kv.1) "user_count:")).find?
        (fun kv => kv.1 == k)).map (·.2) = _
    rw [find_filter_not (fun key => strContains (locmemInternalKey key) "user_count:")
      k store, if_neg (by simp [h])]
    rfl
  · intro store
    exact ⟨rfl, rfl, rfl, rfl⟩

/-- Witness for C9's amended theorem at a concrete two-key store. -/
theorem c9_reset_counts_amended_witness :
    (reset_connection_counts
        (.withDeletePattern [("user_count:a", 1), ("keep", 2)])).1.lookup "user_count:a" =
      none ∧
    (reset_connection_counts
        (.locmem [("user_count:a", 1), ("keep", 2)])).1.lookup "keep" = some 2 :=
  ⟨(c9_reset_counts_amended.1 [("user_count:a", 1), ("keep", 2)] "user_count:a"
      (by decide)).1,
   c9_reset_counts_amended.2.2.1 [("user_count:a", 1), ("keep", 2)] "keep"
      (by decide)⟩

/-- C10 counterexample: presence updates are NOT atomic.  Under the interleaved
schedule read-A, read-B, write-A, write-B, two completed concurrent increments
of the same key leave the stored count at 1 instead of 2 — an update is lost,
refuting the claim that no update is ever lost under concurrent calls. -/
theorem c10_counterexample_lost_update :
    ¬ (∀ sched : List (Fin 2), scheduleComplete sched = true →
        twoIncrementsFinal sched = 2) := by
  intro h
  have h1 := h [0, 1, 0, 1] (by rfl)
  have h2 : twoIncrementsFinal [0, 1, 0, 1] = 1 := by rfl
  rw [h2] at h1
  exact absurd h1 (by decide)

/-- C10 (amended): `update_user_count` is a non-atomic cache read followed by a
cache write.  When the two calls do not interleave, two increments of one key
yield the count 2; under the interleaved schedule both calls also run to
completion but the final count is 1 (a lost update).  So sessions do
read-then-write presence counts outside any atomic contract, and concurrent
safety does not hold. -/
theorem c10_nonatomic_update_amended :
    scheduleComplete [0, 0, 1, 1] = true ∧ twoIncrementsFinal [0, 0, 1, 1] = 2 ∧
    scheduleComplete [0, 1, 0, 1] = true ∧ twoIncrementsFinal [0, 1, 0, 1] = 1 :=
  ⟨rfl, rfl, rfl, rfl⟩
